import Mathlib

/-!
Verification of the anonpy HTTP client core.

A shallow embedding of the `anonpy` request layer: the `RequestHandler`
session/credential logic (`src/anonpy/internals/request_handler.py`), the
`Timeout` value object (`src/anonpy/internals/timeout.py`), `join_url`
(`src/anonpy/internals/utils.py`) and the `AnonPy.upload`/`AnonPy.download`
streaming operations (`src/anonpy/anonpy.py`).

Python strings are modelled as `List Char`, Python byte strings as
`List Nat` (one `Nat` in `[0, 256)` per byte), dictionaries as association
lists, and raised exceptions as an `Except` error channel.
-/

namespace AnonPy

/-- Python exceptions that the embedded code paths can raise.
`configurationError` has no counterpart anywhere in the repository; it is
modelled from the spec: the error taxonomy of §7 names a `ConfigurationError`
class for invalid-argument failures, and we need the name only to compare it
with what the code actually raises. -/
inductive PyError where
  | nameError : String → PyError
  | typeError : String → PyError
  | attributeError : String → PyError
  | notImplementedError : PyError
  | configurationError : String → PyError
deriving DecidableEq, Repr

/-- Holds exactly on the `ConfigurationError` taxonomy class of the spec. -/
def PyError.isConfigurationError : PyError → Bool
  | .configurationError _ => true
  | _ => false

/-- Holds exactly on Python `TypeError`. -/
def PyError.isTypeError : PyError → Bool
  | .typeError _ => true
  | _ => false

/-! ## `join_url` (`internals/utils.py`, lines 65-69)

```python
def join_url(url: str, *paths) -> str:
    return functools.reduce(lambda u, p: f"{u.rstrip("/")}/{p.lstrip("/")}", [url, *paths])
```
-/

/-- Python `str.lstrip("/")`: remove every leading `'/'`. -/
def lstripSlash (s : List Char) : List Char := s.dropWhile (· = '/')

/-- Python `str.rstrip("/")`: remove every trailing `'/'`. -/
def rstripSlash (s : List Char) : List Char :=
  (s.reverse.dropWhile (· = '/')).reverse

/-- Definition `join_url`: left fold of `λ u p, u.rstrip("/") + "/" + p.lstrip("/")`
over `[url, *paths]`, exactly the `functools.reduce` of the source. -/
def join_url (url : List Char) (paths : List (List Char)) : List Char :=
  paths.foldl (fun u p => rstripSlash u ++ '/' :: lstripSlash p) url

theorem dropWhile_replicate_append {α : Type} (p : α → Bool) (a : α) (hpa : p a = true) :
    ∀ (n : Nat) (l : List α), List.dropWhile p (List.replicate n a ++ l) = List.dropWhile p l := by
  intro n
  induction n with
  | zero => intro l; rfl
  | succ m ih =>
    intro l
    rw [List.replicate_succ, List.cons_append, List.dropWhile_cons, hpa]
    exact ih l

theorem dropWhile_eq_self_of_head {α : Type} (p : α → Bool) (l : List α)
    (h : ∀ c, l.head? = some c → p c = false) : List.dropWhile p l = l := by
  cases l with
  | nil => rfl
  | cons c cs =>
    rw [List.dropWhile_cons, h c rfl]
    rfl

theorem lstripSlash_strips (path : List Char) (hp : path.head? ≠ some '/') (j : Nat) :
    lstripSlash (List.replicate j '/' ++ path) = path := by
  unfold lstripSlash
  rw [dropWhile_replicate_append _ _ (by decide)]
  apply dropWhile_eq_self_of_head
  intro c hc
  simp only [decide_eq_false_iff_not]
  intro hcslash
  exact hp (hcslash ▸ hc)

theorem rstripSlash_strips (base : List Char) (hb : base.getLast? ≠ some '/') (i : Nat) :
    rstripSlash (base ++ List.replicate i '/') = base := by
  unfold rstripSlash
  rw [List.reverse_append, List.reverse_replicate,
    dropWhile_replicate_append _ _ (by decide),
    dropWhile_eq_self_of_head, List.reverse_reverse]
  intro c hc
  rw [List.head?_reverse] at hc
  simp only [decide_eq_false_iff_not]
  intro hcslash
  exact hb (hcslash ▸ hc)

/-- Claim C6: for every base URL and relative path, with 0, 1 or 2 redundant
slashes on either side of the joining boundary, `join_url` yields the same
normalized URL: the base and the path separated by exactly one slash. -/
theorem join_url_normalizes (base path : List Char)
    (hb : base.getLast? ≠ some '/') (hp : path.head? ≠ some '/')
    (i j : Nat) (hi : i ≤ 2) (hj : j ≤ 2) :
    join_url (base ++ List.replicate i '/') [List.replicate j '/' ++ path]
      = base ++ '/' :: path := by
  show rstripSlash (base ++ List.replicate i '/') ++ '/' :: lstripSlash (List.replicate j '/' ++ path)
      = base ++ '/' :: path
  rw [rstripSlash_strips base hb i, lstripSlash_strips path hp j]

/-- Witness for C6 at a concrete base and path, with one redundant slash on
the base side and two on the path side. -/
theorem join_url_normalizes_witness :
    join_url ("http://host/api".toList ++ List.replicate 1 '/')
        [List.replicate 2 '/' ++ "file/abc".toList]
      = "http://host/api".toList ++ '/' :: "file/abc".toList :=
  join_url_normalizes _ _ (by decide) (by decide) 1 2 (by decide) (by decide)

/-! ## Chunked file reading (`anonpy.py`, `AnonPy.upload` lines 88-107)

```python
MB = 1_048_576
chunk_size = min(1*MB, size // 2)
for chunk in iter(lambda: file_handler.read(chunk_size), b""):
    response = self._post(...)
```

`file.read(n)` with `n > 0` returns the next `min(n, remaining)` bytes and
returns `b""` at end of file; `file.read(0)` returns `b""` immediately, so
the `iter(..., b"")` sentinel stops the loop at once when `chunk_size = 0`.
-/

/-- The successive values of `file_handler.read(cs)` until the `b""`
sentinel: the list of chunks the loop body runs on. -/
def readChunks (cs : Nat) (data : List Nat) : List (List Nat) :=
  if h : data = [] ∨ cs = 0 then []
  else data.take cs :: readChunks cs (data.drop cs)
termination_by data.length
decreasing_by
  rw [List.length_drop]
  rcases not_or.mp h with ⟨hdata, hcs⟩
  have hpos : 0 < data.length := List.length_pos.mpr hdata
  omega

theorem readChunks_nil (cs : Nat) : readChunks cs [] = [] := by
  rw [readChunks.eq_def]
  simp

theorem readChunks_zero (data : List Nat) : readChunks 0 data = [] := by
  rw [readChunks.eq_def]
  simp

theorem readChunks_sum_aux (cs : Nat) (hcs : 0 < cs) :
    ∀ (n : Nat) (data : List Nat), data.length ≤ n →
      ((readChunks cs data).map List.length).sum = data.length := by
  intro n
  induction n with
  | zero =>
    intro data hlen
    have : data = [] := List.eq_nil_of_length_eq_zero (Nat.le_zero.mp hlen)
    subst this
    rw [readChunks_nil]
    rfl
  | succ m ih =>
    intro data hlen
    rcases List.eq_nil_or_concat data with hnil | _
    · subst hnil; rw [readChunks_nil]; rfl
    · rw [readChunks.eq_def]
      by_cases hd : data = []
      · simp [hd]
      · have hcond : ¬ (data = [] ∨ cs = 0) := by
          intro hor
          rcases hor with h1 | h2
          · exact hd h1
          · omega
        rw [dif_neg hcond]
        have hpos : 0 < data.length := List.length_pos.mpr hd
        have hdrop : (data.drop cs).length ≤ m := by
          rw [List.length_drop]; omega
        rw [List.map_cons, List.sum_cons, ih (data.drop cs) hdrop,
          List.length_take, List.length_drop]
        omega

/-- With a positive chunk size, the chunks read by the loop cover the data
exactly: their lengths sum to the length of the data. -/
theorem readChunks_sum (cs : Nat) (hcs : 0 < cs) (data : List Nat) :
    ((readChunks cs data).map List.length).sum = data.length :=
  readChunks_sum_aux cs hcs data.length data (Nat.le_refl _)

/-- Every chunk read by the loop has at most `cs` bytes. -/
theorem readChunks_le_aux (cs : Nat) :
    ∀ (n : Nat) (data : List Nat), data.length ≤ n →
      ∀ c ∈ readChunks cs data, c.length ≤ cs := by
  intro n
  induction n with
  | zero =>
    intro data hlen
    have : data = [] := List.eq_nil_of_length_eq_zero (Nat.le_zero.mp hlen)
    subst this
    rw [readChunks_nil]
    intro c hc
    exact absurd hc (List.not_mem_nil c)
  | succ m ih =>
    intro data hlen c hc
    rw [readChunks.eq_def] at hc
    by_cases hcond : data = [] ∨ cs = 0
    · rw [dif_pos hcond] at hc
      exact absurd hc (List.not_mem_nil c)
    · rw [dif_neg hcond] at hc
      rcases not_or.mp hcond with ⟨hd, hcs⟩
      have hpos : 0 < data.length := List.length_pos.mpr hd
      rcases List.mem_cons.mp hc with hhead | htail
      · subst hhead
        rw [List.length_take]
        omega
      · have hdrop : (data.drop cs).length ≤ m := by
          rw [List.length_drop]; omega
        exact ih (data.drop cs) hdrop c htail

theorem readChunks_le (cs : Nat) (data : List Nat) :
    ∀ c ∈ readChunks cs data, c.length ≤ cs :=
  readChunks_le_aux cs data.length data (Nat.le_refl _)

/-- When the data is strictly longer than the (positive) chunk size, at
least two chunks are read. -/
theorem readChunks_two_le (cs : Nat) (data : List Nat) (hcs : 0 < cs)
    (hlen : cs < data.length) : 2 ≤ (readChunks cs data).length := by
  have hd : data ≠ [] := by
    intro hnil
    subst hnil
    simp at hlen
  rw [readChunks.eq_def, dif_neg (by push_neg; exact ⟨hd, by omega⟩)]
  have hd2 : data.drop cs ≠ [] := by
    intro hnil
    have := congrArg List.length hnil
    rw [List.length_drop] at this
    simp at this
    omega
  rw [readChunks.eq_def, dif_neg (by push_neg; exact ⟨hd2, by omega⟩)]
  simp

/-! ## `str.format` for `Endpoint` templates

`Endpoint` (`endpoint.py`) is a frozen triple of URL templates; `download`
and `preview` each hold one `{}` placeholder that
`self.endpoint.download.format(resource)` substitutes.
-/

/-- Python `template.format(arg)` for a template with a single positional
`\x7b\x7d` placeholder: the first placeholder is replaced by `arg`. -/
def formatTemplate (template arg : List Char) : List Char :=
  match template with
  | [] => []
  | '\x7b' :: '\x7d' :: rest => arg ++ rest
  | c :: rest => c :: formatTemplate rest arg

/-- Structure `Endpoint` (`endpoint.py`): frozen dataclass of three URL templates. -/
structure Endpoint where
  upload : List Char
  download : List Char
  preview : List Char
deriving DecidableEq, Repr

/-! ## `AnonPy.upload` (`anonpy.py`, lines 83-124)

The loop posts one request per chunk; the variable `response` is first bound
inside the loop body, so a loop that never runs leaves it unbound and the
subsequent `response.json()` raises `NameError`.

After the loop the source reads

```python
if url:=response_data.get("url") is None:
    resource = response_data.get("id", "UNKNOWN")
    relative_url = self.endpoint.download.format(resource)
    url = join_url(self.api.geturl(), relative_url)
```

The walrus operator has the lowest precedence, so `url` is bound to the
boolean `response_data.get("url") is None`, never to the `"url"` field; and
on the branch where that boolean is false, `resource` is never assigned yet
is read by the returned dictionary, raising `NameError`.
-/

/-- A Python local that may hold a boolean or a string (the fate of the
`url` local in `upload`). -/
inductive PyVal where
  | bool : Bool → PyVal
  | str : List Char → PyVal
deriving DecidableEq, Repr

/-- The dictionary returned by a completed `upload` call. -/
structure UploadResult where
  name : List Char
  size : Nat
  resource : List Char
  url : PyVal
deriving DecidableEq, Repr

/-- The chunks read from the source file by `upload`:
`chunk_size = min(1*MB, size // 2)` with `MB = 1_048_576`. -/
def uploadChunks (fileData : List Nat) : List (List Nat) :=
  readChunks (min 1048576 (fileData.length / 2)) fileData

/-- Function `AnonPy.upload`, given the name and bytes of the file and the two
fields of the JSON reply of the server (`"url"` and `"id"`, absent keys as `none`). Returns the
number of POST requests issued together with the outcome: the returned
dictionary, or the exception raised. -/
def upload (api : List Char) (endpoint : Endpoint) (name : List Char)
    (fileData : List Nat) (respUrlField respIdField : Option (List Char)) :
    Nat × Except PyError UploadResult :=
  let chunks := uploadChunks fileData
  let posts := chunks.length
  if posts = 0 then
    (0, Except.error (PyError.nameError "response"))
  else
    let url := PyVal.bool respUrlField.isNone
    if respUrlField.isNone then
      let resource := respIdField.getD ('U' :: 'N' :: 'K' :: 'N' :: 'O' :: 'W' :: 'N' :: [])
      let relative_url := formatTemplate endpoint.download resource
      let url := PyVal.str (join_url api [relative_url])
      (posts, Except.ok { name := name, size := fileData.length, resource := resource, url := url })
    else
      (posts, Except.error (PyError.nameError "resource"))

/-! ## `AnonPy.download` (`anonpy.py`, lines 160-196)

```python
if enable_progressbar and (size is None or name is None):
    raise TypeError("invalid combination of arguments")
MB = 1_048_576
relative_path = self.endpoint.download.format(resource)
url = join_url(self.api.geturl(), relative_path)
full_path = path / name
chunk_size = min(1*MB, size // 2)
... open(full_path, "wb") ... self._get(relative_path, stream=True) ...
for chunk in response.iter_content(chunk_size): file_handler.write(chunk)
```

`path / name` with `name = None` raises `TypeError` (line 174), as does
`size // 2` with `size = None` (line 175); both run before the network
request inside the `with` block. `response.iter_content(chunk_size)` yields
the response body in pieces of at most `chunk_size` bytes.
-/

/-- The chunks written to disk by `download` for a response body, with the
chunk size of the source, `chunk_size = min(1*MB, size // 2)`. -/
def downloadChunks (size : Nat) (body : List Nat) : List (List Nat) :=
  readChunks (min 1048576 (size / 2)) body

/-- The dictionary returned by a completed `download` call, extended with
the written chunks so the transfer can be inspected. -/
structure DownloadTrace where
  name : List Char
  folder : List Char
  size : Nat
  resource : List Char
  url : List Char
  full_path : List Char
  written : List (List Nat)
deriving DecidableEq, Repr

/-- Function `AnonPy.download`, given the base URL and endpoint of the handler,
the call arguments (optional ones as `none` when left at their `None` default) and
the response body the server streams. Returns the number of HTTP requests
issued together with the outcome. -/
def download (api : List Char) (endpoint : Endpoint) (resource : List Char)
    (path : List Char) (enable_progressbar : Bool)
    (size : Option Nat) (name : Option (List Char)) (body : List Nat) :
    Nat × Except PyError DownloadTrace :=
  if enable_progressbar && (size.isNone || name.isNone) then
    (0, Except.error (PyError.typeError "invalid combination of arguments"))
  else
    let relative_path := formatTemplate endpoint.download resource
    let url := join_url api [relative_path]
    match name with
    | none => (0, Except.error (PyError.typeError "unsupported operand type for /: PurePath and NoneType"))
    | some n =>
      match size with
      | none => (0, Except.error (PyError.typeError "unsupported operand type for //: NoneType and int"))
      | some sz =>
        let full_path := path ++ '/' :: n
        (1, Except.ok
          { name := n, folder := path, size := sz, resource := resource,
            url := url, full_path := full_path, written := downloadChunks sz body })

/-! ## C1: chunking covers the whole file -/

/-- Claim C1: for a file of `N ≥ 2` bytes, `upload` reads chunks of at most
`min(1 MiB, N / 2)` bytes each, at least two chunks are read, and the chunk
lengths sum to `N` exactly; the chunk lengths written by `download` likewise
sum to the size of the transferred body exactly. -/
theorem chunking_covers (fileData body : List Nat) (declaredSize : Nat)
    (hfile : 2 ≤ fileData.length) (hdecl : 2 ≤ declaredSize) :
    ((uploadChunks fileData).map List.length).sum = fileData.length ∧
    2 ≤ (uploadChunks fileData).length ∧
    (∀ c ∈ uploadChunks fileData, c.length ≤ min 1048576 (fileData.length / 2)) ∧
    ((downloadChunks declaredSize body).map List.length).sum = body.length := by
  have hupos : 0 < min 1048576 (fileData.length / 2) :=
    Nat.lt_min.mpr ⟨by norm_num, by omega⟩
  have hdpos : 0 < min 1048576 (declaredSize / 2) :=
    Nat.lt_min.mpr ⟨by norm_num, by omega⟩
  have hlt : min 1048576 (fileData.length / 2) < fileData.length :=
    Nat.lt_of_le_of_lt (Nat.min_le_right _ _) (by omega)
  exact ⟨readChunks_sum _ hupos fileData,
    readChunks_two_le _ fileData hupos hlt,
    readChunks_le _ fileData,
    readChunks_sum _ hdpos body⟩

/-- Witness for C1: scenario 1 of the spec, a 10-byte file (chunk size
`min(1 MiB, 5) = 5`), and a 3-byte download body with declared size 3. -/
theorem chunking_covers_witness :
    ((uploadChunks [1, 2, 3, 4, 5, 6, 7, 8, 9, 10]).map List.length).sum = 10 ∧
    2 ≤ (uploadChunks [1, 2, 3, 4, 5, 6, 7, 8, 9, 10]).length ∧
    (∀ c ∈ uploadChunks [1, 2, 3, 4, 5, 6, 7, 8, 9, 10], c.length ≤ min 1048576 (10 / 2)) ∧
    ((downloadChunks 3 [7, 8, 9]).map List.length).sum = 3 :=
  chunking_covers [1, 2, 3, 4, 5, 6, 7, 8, 9, 10] [7, 8, 9] 3 (by decide) (by decide)

/-! ## C10: upload of a 0- or 1-byte file -/

/-- Claim C10: for a file of 0 or 1 bytes, `upload` computes `chunk_size = 0`,
the chunk loop body never runs (no POST request is issued), and the call
raises `NameError` when it reads the unbound `response`. -/
theorem upload_tiny_file (api : List Char) (endpoint : Endpoint) (name : List Char)
    (fileData : List Nat) (respUrlField respIdField : Option (List Char))
    (h : fileData.length ≤ 1) :
    min 1048576 (fileData.length / 2) = 0 ∧
    uploadChunks fileData = [] ∧
    upload api endpoint name fileData respUrlField respIdField
      = (0, Except.error (PyError.nameError "response")) := by
  have hhalf : fileData.length / 2 = 0 := by omega
  have hcs : min 1048576 (fileData.length / 2) = 0 := by
    rw [hhalf, Nat.min_zero]
  have hchunks : uploadChunks fileData = [] := by
    unfold uploadChunks
    rw [hcs, readChunks_zero]
  refine ⟨hcs, hchunks, ?_⟩
  unfold upload
  rw [hchunks]
  rfl

/-- Witness for C10 at a concrete 1-byte file. -/
theorem upload_tiny_file_witness :
    min 1048576 (([42] : List Nat).length / 2) = 0 ∧
    uploadChunks [42] = [] ∧
    upload "https://pixeldrain.com/api".toList
      { upload := "/file".toList, download := "file/\x7b\x7d".toList,
        preview := "/file/\x7b\x7d/info".toList }
      "foo.txt".toList [42] none none
      = (0, Except.error (PyError.nameError "response")) :=
  upload_tiny_file _ _ _ [42] none none (by decide)

/-! ## C3: the direct-URL field of an upload response -/

/-- Claim C3 fails on the code: at a server reply that does contain a direct
`"url"` field, `upload` does not return that field verbatim: the walrus
assignment `url := response_data.get("url") is None` binds `url` to the
boolean `False`, the `if` branch that assigns `resource` is skipped, and
the read of `resource` by the returned dictionary raises `NameError`. -/
theorem upload_direct_url_lost :
    upload "https://pixeldrain.com/api".toList
      { upload := "/file".toList, download := "file/\x7b\x7d".toList,
        preview := "/file/\x7b\x7d/info".toList }
      "foo.txt".toList [10, 20]
      (some "https://pixeldrain.com/u/abc".toList) (some "abc".toList)
      = (2, Except.error (PyError.nameError "resource")) := by
  have hchunks : uploadChunks [10, 20] = [[10], [20]] := by
    unfold uploadChunks
    norm_num
    simp [readChunks.eq_def]
  unfold upload
  rw [hchunks]
  rfl

/-! ## C5 and C9: the fail-fast paths of `download` -/

/-- A sample endpoint matching the test fixture of the repository
(`tests/anonpy_test.py`). -/
def sampleEndpoint : Endpoint :=
  { upload := "/file".toList, download := "/file/\x7b\x7d".toList,
    preview := "/file/\x7b\x7d/info".toList }

/-- The sample base API URL of the test fixture of the repository. -/
def sampleApi : List Char := "https://mock.provider.com/api/".toList

/-- Claim C5 fails on the code as stated: calling `download` with progress
enabled but `size` and `name` missing raises `TypeError("invalid
combination of arguments")` — before any network request — and a
`TypeError` is not the `ConfigurationError` of the spec. -/
theorem download_progress_missing_not_config_error :
    download sampleApi sampleEndpoint "abc".toList "/home/user".toList true none none []
      = (0, Except.error (PyError.typeError "invalid combination of arguments")) ∧
    (PyError.typeError "invalid combination of arguments").isConfigurationError = false := by
  constructor
  · rfl
  · rfl

/-- Claim C5, amended: for every call to `download` with progress enabled but
`size` or `name` missing, the call fails fast with
`TypeError("invalid combination of arguments")` and zero network requests
are issued. -/
theorem download_progress_missing_type_error (api : List Char) (endpoint : Endpoint)
    (resource path : List Char) (size : Option Nat) (name : Option (List Char))
    (body : List Nat) (h : size = none ∨ name = none) :
    download api endpoint resource path true size name body
      = (0, Except.error (PyError.typeError "invalid combination of arguments")) := by
  unfold download
  have hcond : (size.isNone || name.isNone) = true := by
    rcases h with h1 | h1 <;> subst h1 <;> simp
  rw [Bool.true_and, hcond, if_pos rfl]

/-- Witness for the amended C5 at the concrete input of the
counterexample. -/
theorem download_progress_missing_type_error_witness :
    download sampleApi sampleEndpoint "abc".toList "/home/user".toList true none none []
      = (0, Except.error (PyError.typeError "invalid combination of arguments")) :=
  download_progress_missing_type_error sampleApi sampleEndpoint "abc".toList
    "/home/user".toList none none [] (Or.inl rfl)

/-- Claim C9: the documented two-argument form `download(resource, path)` —
progress disabled, `size` or `name` left at their `None` default — raises
`TypeError` before issuing any network request, because `path / name` and
`size // 2` are evaluated unconditionally with `None` operands. -/
theorem download_default_args_type_error (api : List Char) (endpoint : Endpoint)
    (resource path : List Char) (size : Option Nat) (name : Option (List Char))
    (body : List Nat) (h : size = none ∨ name = none) :
    (download api endpoint resource path false size name body).1 = 0 ∧
    ∃ msg, (download api endpoint resource path false size name body).2
      = Except.error (PyError.typeError msg) := by
  unfold download
  rw [Bool.false_and, if_neg (by simp)]
  cases name with
  | none => exact ⟨rfl, _, rfl⟩
  | some n =>
    cases size with
    | none => exact ⟨rfl, _, rfl⟩
    | some sz =>
      rcases h with h1 | h1 <;> simp at h1

/-- Witness for C9 at the concrete two-argument call (both optionals left
at `None`). -/
theorem download_default_args_type_error_witness :
    (download sampleApi sampleEndpoint "abc".toList "/home/user".toList false none none []).1 = 0 ∧
    ∃ msg, (download sampleApi sampleEndpoint "abc".toList "/home/user".toList false none none []).2
      = Except.error (PyError.typeError msg) :=
  download_default_args_type_error sampleApi sampleEndpoint "abc".toList
    "/home/user".toList none none [] (Or.inl rfl)

/-! ## `RequestHandler` (`internals/request_handler.py`)

The `__slots__` of the handler hold only configuration — there is no session
slot. `_session` is a read-only *property*: every access builds a brand-new
`requests.Session`, mounts the retry adapter, installs the
`raise_for_status` hook and sets the `User-Agent` header. We track the
headers the code itself sets on such a fresh session.

`Authorization` (`internals/authorization.py`) declares `Basic` and
`Digest`; in the source they appear as bare annotations of the `Enum`
subclass — we model the two intended members.
-/

/-- The `Authorization` scheme enum. -/
inductive Authorization where
  | Basic : Authorization
  | Digest : Authorization
deriving DecidableEq, Repr

/-- Python `str.encode("utf-8")` on the ASCII strings handled here (each character
is one byte whose value is the code point). -/
def strBytes (s : String) : List Nat := s.data.map Char.toNat

/-- The base64 alphabet: character for a 6-bit group. -/
def b64char (n : Nat) : Char :=
  "ABCDEFGHIJKLMNOPQRSTUVWXYZabcdefghijklmnopqrstuvwxyz0123456789+/".toList.getD n '='

/-- Python `base64.b64encode`: RFC 4648 encoding of a byte list, with `'='`
padding. -/
def b64encode : List Nat → List Char
  | [] => []
  | [a] => [b64char (a / 4), b64char (a % 4 * 16), '=', '=']
  | [a, b] => [b64char (a / 4), b64char (a % 4 * 16 + b / 16), b64char (b % 16 * 4), '=']
  | a :: b :: c :: rest =>
    b64char (a / 4) :: b64char (a % 4 * 16 + b / 16) :: b64char (b % 16 * 4 + c / 64) ::
      b64char (c % 64) :: b64encode rest

/-- A `requests.Session`, reduced to the headers the embedded code sets on
it. -/
structure Session where
  headers : List (String × String)
deriving DecidableEq, Repr

/-- Python `dict.update`: keys of `upd` override those of `base` (lookup
order: updated keys first, surviving base keys after). -/
def headersUpdate (base upd : List (String × String)) : List (String × String) :=
  upd ++ base.filter (fun kv => upd.all (fun kv2 => kv2.1 ≠ kv.1))

/-- The configuration slots of `RequestHandler` used by the embedded
methods (`self.api.scheme`, `token`, `credentials`, `user_agent`,
`total`, `status_forcelist`, `backoff_factor`). -/
structure RequestHandler where
  scheme : String
  token : Option String
  credentials : Option String
  user_agent : String
  total : Nat
  status_forcelist : List Nat
  backoff_factor : Nat
deriving DecidableEq, Repr

/-- The `_session` property: a *fresh* `Session` is constructed on every
access; the only header the code installs is the `User-Agent`. -/
def RequestHandler.session (h : RequestHandler) : Session :=
  { headers := [("User-Agent", h.user_agent)] }

/-- The headers a request issued through `_get` / `_post` / `_put` carries:
each of those methods calls `self._session.<verb>(...)`, i.e. the headers
of yet another fresh session. -/
def RequestHandler.requestHeaders (h : RequestHandler) : List (String × String) :=
  h.session.headers

/-- Method `set_credentials` (lines 100-118): base64-encode the token, build the
`Authorization: Basic <credentials>` header, and update
`self._session.headers` — the headers of a fresh session produced by the
property, which the statement then discards. Returns the updated handler,
that discarded session, and whether the plaintext-HTTP `SecurityWarning`
fired. Unsupported schemes raise `NotImplementedError`; a `None` token
makes `self.token.encode(...)` raise `AttributeError`. -/
def RequestHandler.set_credentials (h : RequestHandler) (auth : Authorization) :
    Except PyError (RequestHandler × Session × Bool) :=
  match auth with
  | Authorization.Basic =>
    match h.token with
    | none => Except.error (PyError.attributeError "encode")
    | some t =>
      let warned := h.scheme = "http"
      let creds := String.mk (b64encode (strBytes t))
      let auth_header := [("Authorization", "Basic " ++ creds)]
      let h2 := { h with credentials := some creds }
      Except.ok (h2, { headers := headersUpdate h2.session.headers auth_header }, warned)
  | _ => Except.error PyError.notImplementedError

/-- Function `build_user_agent` (lines 73-98). The list literal of the source
```python
user_agent_data = [
    f"{package}/{version}",
    f"{platform.system()}/{platform.release()}"
    f"CPython/{platform.python_version()}"
]
```
has no comma between the second and third f-strings, so they are one
concatenated element. The platform and environment reads are parameters;
the returned flag records whether the PII `SecurityWarning` fired. -/
def build_user_agent (package version osSystem osRelease pyVersion username : String)
    (expose_username : Bool) : String × Bool :=
  let user_agent_data := [package ++ "/" ++ version,
    osSystem ++ "/" ++ osRelease ++ "CPython/" ++ pyVersion]
  if expose_username then
    (String.intercalate " " (user_agent_data ++ ["username/" ++ username]), true)
  else
    (String.intercalate " " user_agent_data, false)

/-- A handler configured like the test fixture of the repository, with the
class defaults `total=5`, `forcelist=[413,429,500,502,503,504]`,
`backoff_factor=1` and token `"secret"` (the P6 example of the spec). -/
def sampleHandler : RequestHandler :=
  { scheme := "https", token := some "secret", credentials := none,
    user_agent := "anonpy/0.0.0", total := 5,
    status_forcelist := [413, 429, 500, 502, 503, 504], backoff_factor := 1 }

/-! ## C2: the Basic authorization header -/

/-- Claim C2 fails on the code: after `set_credentials(Basic)` on a handler
with token `"secret"`: the credentials are correctly set to
`base64("secret") = "c2VjcmV0"` and the header
`Authorization: Basic c2VjcmV0` is written — but only onto the freshly
constructed session that `set_credentials` immediately discards. A
subsequent request goes through another fresh `_session`, whose headers
carry no `Authorization` at all. -/
theorem set_credentials_header_lost :
    (Except.map
      (fun r : RequestHandler × Session × Bool =>
        (r.1.credentials,
         (RequestHandler.requestHeaders r.1).lookup "Authorization",
         r.2.1.headers.lookup "Authorization",
         r.2.2))
      (sampleHandler.set_credentials Authorization.Basic))
      = Except.ok (some "c2VjcmV0", none, some "Basic c2VjcmV0", false) := by
  rfl

/-! ## C8: the user agent string -/

/-- Claim C8 fails on the code: the missing comma in the list
literal of the source concatenates the OS component and the CPython component: the
result reads `.../<os-version>CPython/...` with no separating space. The
username suffix and its warning do behave as claimed. -/
theorem build_user_agent_missing_space :
    build_user_agent "anonpy" "0.1.0" "Linux" "6.1" "3.12.0" "johndoe" false
      = ("anonpy/0.1.0 Linux/6.1CPython/3.12.0", false) ∧
    build_user_agent "anonpy" "0.1.0" "Linux" "6.1" "3.12.0" "johndoe" true
      = ("anonpy/0.1.0 Linux/6.1CPython/3.12.0 username/johndoe", true) ∧
    "anonpy/0.1.0 Linux/6.1CPython/3.12.0" ≠ "anonpy/0.1.0 Linux/6.1 CPython/3.12.0" := by
  refine ⟨rfl, rfl, ?_⟩
  decide

/-! ## C4: the retry bound -/

/-- Structure `urllib3.util.retry.Retry` as configured by the handler. -/
structure Retry where
  total : Nat
  status_forcelist : List Nat
  backoff_factor : Nat
deriving DecidableEq, Repr

/-- The `_retry_strategy` property (lines 120-132): a `Retry` built from
the `total`, `status_forcelist` and `backoff_factor` of the handler. -/
def RequestHandler.retry_strategy (h : RequestHandler) : Retry :=
  { total := h.total, status_forcelist := h.status_forcelist,
    backoff_factor := h.backoff_factor }

/-- Modelled from the spec: the retry execution of the `HTTPAdapter` that
`_session` mounts is third-party (`urllib3`), not repository code. Per
§4.2, on a response whose status is in the forcelist the adapter retries,
up to `total_retries` attempts, then propagates the final failure as a
terminal HTTP status error. `server k` is the status code of the `k`-th
request; the result is the number of requests issued and either the
successful status or the terminal error status. -/
def runRetry (forcelist : List Nat) (server : Nat → Nat) :
    Nat → Nat → Nat × Except Nat Nat
  | budget, attempt =>
    let status := server attempt
    if status ∈ forcelist then
      match budget with
      | 0 => (1, Except.error status)
      | Nat.succ b =>
        let r := runRetry forcelist server b (attempt + 1)
        (r.1 + 1, r.2)
    else
      (1, Except.ok status)

/-- One request issued through the session of the handler, retried according to
`_retry_strategy`. -/
def RequestHandler.performRequest (h : RequestHandler) (server : Nat → Nat) :
    Nat × Except Nat Nat :=
  runRetry h.retry_strategy.status_forcelist server h.retry_strategy.total 0

theorem runRetry_all_forced (forcelist : List Nat) (server : Nat → Nat)
    (hs : ∀ k, server k ∈ forcelist) :
    ∀ (budget attempt : Nat),
      runRetry forcelist server budget attempt
        = (budget + 1, Except.error (server (attempt + budget))) := by
  intro budget
  induction budget with
  | zero =>
    intro attempt
    unfold runRetry
    rw [if_pos (hs attempt)]
    rfl
  | succ b ih =>
    intro attempt
    unfold runRetry
    rw [if_pos (hs attempt)]
    show (((runRetry forcelist server b (attempt + 1)).1 + 1 : Nat), (runRetry forcelist server b (attempt + 1)).2)
        = (b + 1 + 1, Except.error (server (attempt + (b + 1))))
    rw [ih (attempt + 1)]
    have : attempt + 1 + b = attempt + (b + 1) := by omega
    rw [this]

/-- Claim C4: with `total_retries = N` configured through `_retry_strategy`
and a server that always answers with a forcelisted status, exactly `N`
retries occur — `N + 1` HTTP requests in total — and then the terminal
HTTP status error is surfaced. -/
theorem retry_bound (h : RequestHandler) (server : Nat → Nat)
    (hs : ∀ k, server k ∈ h.status_forcelist) :
    (h.performRequest server).1 = h.retry_strategy.total + 1 ∧
    (h.performRequest server).2 = Except.error (server h.retry_strategy.total) := by
  unfold RequestHandler.performRequest
  rw [runRetry_all_forced h.retry_strategy.status_forcelist server hs h.retry_strategy.total 0]
  exact ⟨rfl, by rw [Nat.zero_add]⟩

/-- A handler with `total = 3`, otherwise the class defaults: scenario 6
of the spec. -/
def retryHandler : RequestHandler :=
  { sampleHandler with total := 3 }

/-- Witness for C4: `total_retries = 3` against an always-503 server gives
exactly 4 requests and a terminal 503. -/
theorem retry_bound_witness :
    (retryHandler.performRequest (fun _ => 503)).1 = 4 ∧
    (retryHandler.performRequest (fun _ => 503)).2 = Except.error 503 := by
  have h := retry_bound retryHandler (fun _ => 503)
    (by intro k; show (503 : Nat) ∈ retryHandler.status_forcelist; decide)
  exact h

/-! ## C7: `Timeout` construction (`internals/timeout.py`, lines 42-57)

```python
self.values = values or (connect, read)
self.connect = values or connect
self.read = values or read
if values is None and connect is None and read is None:
    warn(...)
```
-/

/-- The `values` slot of a `Timeout`: either the single number passed as
`values`, or the `(connect, read)` pair. -/
inductive TimeoutValues where
  | single : Int → TimeoutValues
  | pair : Option Int → Option Int → TimeoutValues
deriving DecidableEq, Repr

/-- The slots of a constructed `Timeout`. -/
structure Timeout where
  values : TimeoutValues
  connect : Option Int
  read : Option Int
deriving DecidableEq, Repr

/-- Python truthiness of an optional number: `None`, `0` and `0.0` are
falsy. -/
def truthy : Option Int → Bool
  | none => false
  | some n => n != 0

/-- Python `Timeout.__init__`: the constructed object together with whether the
missing-timeout `UserWarning` fired (`values is None and connect is None
and read is None`). -/
def Timeout.init (values connect read : Option Int) : Timeout × Bool :=
  ({ values := if truthy values then TimeoutValues.single (values.getD 0)
               else TimeoutValues.pair connect read,
     connect := if truthy values then values else connect,
     read := if truthy values then values else read },
   values.isNone && connect.isNone && read.isNone)

/-- Claim C7: constructing a `Timeout` with no value at all fires the
configuration warning; constructing it with any value set fires no such
warning. -/
theorem timeout_warns_iff_unset (values connect read : Option Int)
    (h : values ≠ none ∨ connect ≠ none ∨ read ≠ none) :
    (Timeout.init none none none).2 = true ∧
    (Timeout.init values connect read).2 = false := by
  refine ⟨rfl, ?_⟩
  cases values with
  | some v => rfl
  | none =>
    cases connect with
    | some c => rfl
    | none =>
      cases read with
      | some r => rfl
      | none => rcases h with h1 | h1 | h1 <;> exact absurd rfl h1

/-- Witness for C7: constructing with only a `connect` value does not
warn. -/
theorem timeout_warns_iff_unset_witness :
    (Timeout.init none none none).2 = true ∧
    (Timeout.init none (some 5) none).2 = false :=
  timeout_warns_iff_unset none (some 5) none (Or.inr (Or.inl (by simp)))

end AnonPy
